import Mathlib

/-!
Verification of the WeRead → Readwise sync script (`src/weread.py`).

The script is embedded shallowly: every pure fragment of the Python source
becomes a Lean definition with the same name (snake_case kept where Lean
allows), JSON-ish raw records become structures of optional fields, and the
ambient clock (`time.time()`) becomes an explicit `now : Int` parameter.
Raw-record fields that the script reads with `dict.get` are modelled as
`Option` values; a field that could hold a non-string JSON value is modelled
at the type the script coerces it to (`str(...)` / `int(...)`).  Python
truthiness on those values (`a or b`) is modelled by `orStr` / `orInt` /
`orOptStr`: `None` and the empty string / zero are falsy.
Character-class details of `str.isdigit`, `str.strip` and the regexes are
modelled at their ASCII core (the script's own test data is ASCII); this is
noted at each definition.
-/

namespace WereadSync

/-! ## Python truthiness helpers (`a or b` chains on `dict.get` results) -/

/-- `a or b` where `a` is an optional string and absent/empty is falsy. -/
def orStr : Option String → String → String
  | some s, b => if s = "" then b else s
  | none, b => b

/-- `a or b` where both sides are optional strings (used for
`item.get("range") or item.get("location") or None`). -/
def orOptStr : Option String → Option String → Option String
  | some s, b => if s = "" then b else some s
  | none, b => b

/-- `a or b` where `a` is an optional integer and absent/zero is falsy. -/
def orInt : Option Int → Int → Int
  | some n, b => if n = 0 then b else n
  | none, b => b

/-! ## `_clean_text` (src/weread.py lines 79-85)

```
s = s.replace("\r\n", "\n").replace("\r", "\n")
s = re.sub(r"[ \t]+", " ", s)
s = re.sub(r"\n{3,}", "\n\n", s).strip()
```
-/

/-- `s.replace("\r\n", "\n")`: left-to-right non-overlapping replacement. -/
def replaceCRLF : List Char → List Char
  | '\r' :: '\n' :: rest => '\n' :: replaceCRLF rest
  | c :: rest => c :: replaceCRLF rest
  | [] => []

/-- `s.replace("\r", "\n")`. -/
def replaceCR (l : List Char) : List Char :=
  l.map (fun c => if c = '\r' then '\n' else c)

/-- `re.sub(r"[ \t]+", " ", s)`: collapse each maximal run of spaces/tabs to
one space.  The flag records whether we are inside such a run. -/
def collapseWSAux : Bool → List Char → List Char
  | _, [] => []
  | inRun, c :: rest =>
    if c = ' ' ∨ c = '\t' then
      (if inRun then [] else [' ']) ++ collapseWSAux true rest
    else c :: collapseWSAux false rest

def collapseWS (l : List Char) : List Char := collapseWSAux false l

/-- `re.sub(r"\n{3,}", "\n\n", s)`: a maximal run of `k ≥ 3` newlines becomes
exactly two.  The counter records how many consecutive newlines precede. -/
def collapseNLAux : Nat → List Char → List Char
  | _, [] => []
  | k, c :: rest =>
    if c = '\n' then
      (if k ≥ 2 then [] else ['\n']) ++ collapseNLAux (k + 1) rest
    else c :: collapseNLAux 0 rest

def collapseNL (l : List Char) : List Char := collapseNLAux 0 l

/-- The characters `str.strip()` removes, at its ASCII core
(`' '`, `\t`, `\n`, `\r`, `\x0b`, `\x0c`). -/
def pyIsSpace (c : Char) : Bool :=
  c = ' ' ∨ c = '\t' ∨ c = '\n' ∨ c = '\r' ∨ c = '\x0b' ∨ c = '\x0c'

/-- `s.strip()` on a character list. -/
def pyStripList (l : List Char) : List Char :=
  ((l.dropWhile pyIsSpace).reverse.dropWhile pyIsSpace).reverse

/-- `s.strip()`. -/
def pyStrip (s : String) : String := String.mk (pyStripList s.data)

/-- `_clean_text` (the `s is None` branch never fires: every caller passes
`str(...)`). -/
def clean_text (s : String) : String :=
  String.mk (pyStripList (collapseNL (collapseWS (replaceCR (replaceCRLF s.data)))))

/-- `str.isdigit` at its ASCII core: nonempty and all `0`-`9`. -/
def strIsDigit (s : String) : Bool :=
  !s.data.isEmpty && s.data.all (fun c => c.isDigit)

/-! ## `_sha1` (src/weread.py lines 88-89): full SHA-1 over the UTF-8 bytes,
lowercase hex digest. -/

/-- UTF-8 encoding of one code point. -/
def utf8Bytes (c : Char) : List Nat :=
  let n := c.toNat
  if n < 128 then [n]
  else if n < 2048 then [192 ||| (n >>> 6), 128 ||| (n &&& 63)]
  else if n < 65536 then
    [224 ||| (n >>> 12), 128 ||| ((n >>> 6) &&& 63), 128 ||| (n &&& 63)]
  else
    [240 ||| (n >>> 18), 128 ||| ((n >>> 12) &&& 63),
     128 ||| ((n >>> 6) &&& 63), 128 ||| (n &&& 63)]

/-- `s.encode("utf-8")` as a list of byte values. -/
def strUtf8 (s : String) : List Nat := (s.data.map utf8Bytes).flatten

/-- The message length in bits as 8 big-endian bytes. -/
def beBytes8 (n : Nat) : List Nat :=
  [(n >>> 56) % 256, (n >>> 48) % 256, (n >>> 40) % 256, (n >>> 32) % 256,
   (n >>> 24) % 256, (n >>> 16) % 256, (n >>> 8) % 256, n % 256]

/-- SHA-1 padding: append `0x80`, zero bytes to 56 mod 64, then the bit length. -/
def sha1Pad (msg : List Nat) : List Nat :=
  let L := msg.length
  let z := (56 + 64 - ((L + 1) % 64)) % 64
  msg ++ [128] ++ List.replicate z 0 ++ beBytes8 (8 * L)

/-- Big-endian 32-bit words from bytes (the input length is a multiple of 4). -/
def toWords : List Nat → List Nat
  | b0 :: b1 :: b2 :: b3 :: rest =>
    ((((b0 <<< 8) ||| b1) <<< 8 ||| b2) <<< 8 ||| b3) :: toWords rest
  | _ => []

/-- Split a word list into 16-word blocks (the input length is a multiple of 16). -/
def chunk16 : List Nat → List (List Nat)
  | w0 :: w1 :: w2 :: w3 :: w4 :: w5 :: w6 :: w7 ::
    w8 :: w9 :: w10 :: w11 :: w12 :: w13 :: w14 :: w15 :: rest =>
    [w0, w1, w2, w3, w4, w5, w6, w7, w8, w9, w10, w11, w12, w13, w14, w15]
      :: chunk16 rest
  | _ => []

/-- Rotate a 32-bit value left by `k`. -/
def rotl (k n : Nat) : Nat := ((n <<< k) ||| (n >>> (32 - k))) % 4294967296

/-- Expand 16 words to 80, keeping the accumulator most-recent-first. -/
def sha1ExpandAux : Nat → List Nat → List Nat
  | 0, acc => acc
  | k + 1, acc =>
    let w := rotl 1 ((acc.getD 2 0) ^^^ (acc.getD 7 0) ^^^ (acc.getD 13 0) ^^^ (acc.getD 15 0))
    sha1ExpandAux k (w :: acc)

def sha1Expand (block : List Nat) : List Nat :=
  (sha1ExpandAux 64 block.reverse).reverse

/-- One SHA-1 round. -/
def sha1Round (st : Nat × Nat × Nat × Nat × Nat) (iw : Nat × Nat) :
    Nat × Nat × Nat × Nat × Nat :=
  let (a, b, c, d, e) := st
  let (i, w) := iw
  let fk : Nat × Nat :=
    if i < 20 then ((b &&& c) ||| ((b ^^^ 4294967295) &&& d), 1518500249)
    else if i < 40 then (b ^^^ c ^^^ d, 1859775393)
    else if i < 60 then ((b &&& c) ||| (b &&& d) ||| (c &&& d), 2400959708)
    else (b ^^^ c ^^^ d, 3395469782)
  let temp := (rotl 5 a + fk.1 + e + fk.2 + w) % 4294967296
  (temp, a, rotl 30 b, c, d)

/-- Process one 512-bit block. -/
def sha1Block (h : Nat × Nat × Nat × Nat × Nat) (block : List Nat) :
    Nat × Nat × Nat × Nat × Nat :=
  let (h0, h1, h2, h3, h4) := h
  let (a, b, c, d, e) := ((sha1Expand block).enum).foldl sha1Round h
  ((h0 + a) % 4294967296, (h1 + b) % 4294967296, (h2 + c) % 4294967296,
   (h3 + d) % 4294967296, (h4 + e) % 4294967296)

def hexChar (n : Nat) : Char :=
  if n < 10 then Char.ofNat (48 + n) else Char.ofNat (87 + n)

/-- A 32-bit word as 8 lowercase hex digits. -/
def toHex8 (n : Nat) : String :=
  String.mk ((List.range 8).map (fun i => hexChar ((n >>> (4 * (7 - i))) &&& 15)))

/-- `hashlib.sha1(s.encode("utf-8")).hexdigest()`. -/
def sha1Hex (s : String) : String :=
  let blocks := chunk16 (toWords (sha1Pad (strUtf8 s)))
  let h := blocks.foldl sha1Block (1732584193, 4023233417, 2562383102, 271733878, 3285377520)
  toHex8 h.1 ++ toHex8 h.2.1 ++ toHex8 h.2.2.1 ++ toHex8 h.2.2.2.1 ++ toHex8 h.2.2.2.2

/-! ## `_unix_to_iso` (src/weread.py lines 75-76)

`datetime.fromtimestamp(ts, tz=utc).isoformat().replace("+00:00", "Z")`:
proleptic-Gregorian civil date from the epoch day (the standard
days-to-civil algorithm), then `YYYY-MM-DDTHH:MM:SSZ`.  Modelled for the
timestamps `datetime` accepts (year 1..9999, where the `+00:00` suffix is
the only occurrence replaced and the year is 4 digits). -/

def pad2 (n : Nat) : String := if n < 10 then "0" ++ toString n else toString n

def pad4 (n : Nat) : String :=
  if n < 10 then "000" ++ toString n
  else if n < 100 then "00" ++ toString n
  else if n < 1000 then "0" ++ toString n
  else toString n

def unix_to_iso (ts : Int) : String :=
  let z0 : Int := Int.fdiv ts 86400
  let sod : Nat := (ts - 86400 * z0).toNat
  let hh := sod / 3600
  let mm := (sod % 3600) / 60
  let ss := sod % 60
  let z : Int := z0 + 719468
  let era : Int := Int.fdiv z 146097
  let doe : Nat := (z - era * 146097).toNat
  let yoe : Nat := (doe - doe / 1460 + doe / 36524 - doe / 146096) / 365
  let doy : Nat := doe - (365 * yoe + yoe / 4 - yoe / 100)
  let mp : Nat := (5 * doy + 2) / 153
  let d : Nat := doy - (153 * mp + 2) / 5 + 1
  let m : Nat := if mp < 10 then mp + 3 else mp - 9
  let y : Int := (yoe : Int) + era * 400 + (if m ≤ 2 then 1 else 0)
  pad4 y.toNat ++ "-" ++ pad2 m ++ "-" ++ pad2 d ++ "T" ++
    pad2 hh ++ ":" ++ pad2 mm ++ ":" ++ pad2 ss ++ "Z"

/-! ## Data model -/

/-- `Book` dataclass (src/weread.py lines 49-54). -/
structure Book where
  book_id : String
  title : String
  author : String
  cover : Option String := none
deriving DecidableEq, Repr

/-- `RWHighlight` dataclass (src/weread.py lines 57-68). -/
structure RWHighlight where
  text : String
  title : String
  author : String
  source_url : String
  highlighted_at : String
  note : Option String
  location : Option String
  location_type : String
  external_id : String
  external_source : String := "weread"
deriving DecidableEq, Repr

/-- One entry of a bookshelf sub-list; the script reads `bookId`, `title`,
`author`, `cover`. -/
structure RawShelfBook where
  bookId : Option String := none
  title : Option String := none
  author : Option String := none
  cover : Option String := none
deriving DecidableEq, Repr

/-- The bookshelf response: the three named sub-lists the script merges.
`none` models a key that is absent or whose value is not a list
(`isinstance(data.get(k), list)` fails either way). -/
structure ShelfData where
  finishReadBooks : Option (List RawShelfBook) := none
  recentBooks : Option (List RawShelfBook) := none
  allBooks : Option (List RawShelfBook) := none
deriving DecidableEq, Repr

/-- One entry of the bookmarklist's `chapters` list. -/
structure RawChapter where
  chapterUid : Option Int := none
  title : Option String := none
deriving DecidableEq, Repr

/-- One raw highlight item of the bookmarklist's `updated` list.  Text-like
fields are optional strings, timestamps and `chapterUid` optional integers. -/
structure RawBookmarkItem where
  markText : Option String := none
  abstract : Option String := none
  content : Option String := none
  text : Option String := none
  review : Option String := none
  reviewContent : Option String := none
  note : Option String := none
  comment : Option String := none
  chapterUid : Option Int := none
  range : Option String := none
  location : Option String := none
  createTime : Option Int := none
  updated : Option Int := none
  bookmarkId : Option String := none
  id : Option String := none
deriving DecidableEq, Repr

/-- The bookmarklist response (`data.get("chapters", []) or []`,
`data.get("updated", []) or []`): `none` models absent-or-falsy. -/
structure BookmarklistData where
  chapters : Option (List RawChapter) := none
  updated : Option (List RawBookmarkItem) := none
deriving DecidableEq, Repr

/-- One raw review ("thought") item. -/
structure RawReview where
  content : Option String := none
  review : Option String := none
  text : Option String := none
  createTime : Option Int := none
  ctime : Option Int := none
  reviewId : Option String := none
  id : Option String := none
deriving DecidableEq, Repr

/-- The review/list response: the four top-level keys the script probes, in
order.  `none` models a key that is absent or not a list. -/
structure ReviewData where
  reviews : Option (List RawReview) := none
  updated : Option (List RawReview) := none
  data : Option (List RawReview) := none
  items : Option (List RawReview) := none
deriving DecidableEq, Repr

/-! ## `WeReadClient.bookshelf` (src/weread.py lines 117-147): the pure part
after `data = self._get(...)`. -/

/-- The merged raw list `books_raw`. -/
def mergedRaw (d : ShelfData) : List RawShelfBook :=
  d.finishReadBooks.getD [] ++ d.recentBooks.getD [] ++ d.allBooks.getD []

/-- `str(b.get("bookId", ""))` (for a present string value; an absent key
gives `""`). -/
def rawBookId (b : RawShelfBook) : String := b.bookId.getD ""

/-- The shelf loop: skip non-digit ids, skip ids already seen, else record
the id and emit the `Book`. -/
def shelfLoop : List RawShelfBook → List String → List Book
  | [], _ => []
  | b :: rest, seen =>
    if !strIsDigit (rawBookId b) then shelfLoop rest seen
    else if seen.contains (rawBookId b) then shelfLoop rest seen
    else
      { book_id := rawBookId b, title := orStr b.title "",
        author := orStr b.author "", cover := b.cover }
        :: shelfLoop rest (rawBookId b :: seen)

/-- `WeReadClient.bookshelf`, modulo the HTTP fetch of `d`. -/
def bookshelf (d : ShelfData) : List Book := shelfLoop (mergedRaw d) []

/-! ## `_should_include` (src/weread.py lines 213-217) -/

/-- `_should_include(ts_unix, only_recent_days)`; `now` is `int(time.time())`.
`if not only_recent_days` is Python truthiness: `None` and `0` both skip the
filter. -/
def should_include (ts_unix : Int) (only_recent_days : Option Int) (now : Int) : Bool :=
  match only_recent_days with
  | none => true
  | some d => if d = 0 then true else ts_unix ≥ now - d * 86400

/-! ## `_extract_highlights_from_bookmarklist` (src/weread.py lines 220-306) -/

/-- The chapter-uid key of a chapters entry: `str(c.get("chapterUid", ""))`. -/
def chapterKey (c : RawChapter) : String :=
  match c.chapterUid with
  | none => ""
  | some n => toString n

/-- Python-dict assignment `m[k] = v`: replace an existing binding in place,
else append. -/
def dictSet : List (String × String) → String → String → List (String × String)
  | [], k, v => [(k, v)]
  | (k', v') :: rest, k, v =>
    if k' = k then (k, v) :: rest else (k', v') :: dictSet rest k v

/-- `m.get(k)`. -/
def dictGet : List (String × String) → String → Option String
  | [], _ => none
  | (k', v') :: rest, k => if k' = k then some v' else dictGet rest k

/-- The `chapters` dict: entries with a truthy uid string and truthy title. -/
def buildChapters : List RawChapter → List (String × String) → List (String × String)
  | [], m => m
  | c :: rest, m =>
    if chapterKey c ≠ "" ∧ orStr c.title "" ≠ "" then
      buildChapters rest (dictSet m (chapterKey c) (orStr c.title ""))
    else buildChapters rest m

/-- `item.get("markText") or item.get("abstract") or item.get("content") or
item.get("text") or ""`. -/
def resolveHighlightText (item : RawBookmarkItem) : String :=
  orStr item.markText (orStr item.abstract (orStr item.content (orStr item.text "")))

/-- `item.get("review") or item.get("reviewContent") or item.get("note") or
item.get("comment") or ""`. -/
def resolveComment (item : RawBookmarkItem) : String :=
  orStr item.review (orStr item.reviewContent (orStr item.note (orStr item.comment "")))

/-- `str(item.get("chapterUid") or "")`. -/
def itemChapterKey (item : RawBookmarkItem) : String :=
  match item.chapterUid with
  | none => ""
  | some n => if n = 0 then "" else toString n

/-- The note of a highlight: the cleaned inline comment, with the chapter
title appended when the chapter id resolves to a truthy title
(src/weread.py lines 249-267). -/
def noteOf (chapters : List (String × String)) (item : RawBookmarkItem) : String :=
  let comment := clean_text (resolveComment item)
  match dictGet chapters (itemChapterKey item) with
  | some t =>
    if t ≠ "" then
      if comment ≠ "" then comment ++ "\n\n— Chapter: " ++ t
      else "— Chapter: " ++ t
    else comment
  | none => comment

/-- `item.get("range") or item.get("location") or None`, stringified if
present (src/weread.py lines 270-272). -/
def resolveLocation (item : RawBookmarkItem) : Option String :=
  orOptStr item.range (orOptStr item.location none)

/-- `ts = int(item.get("createTime") or item.get("updated") or 0)`;
`if ts <= 0: ts = int(time.time())` (src/weread.py lines 274-278). -/
def resolveTs (item : RawBookmarkItem) (now : Int) : Int :=
  let t := orInt item.createTime (orInt item.updated 0)
  if t ≤ 0 then now else t

/-- `item.get("bookmarkId") or item.get("id") or ""`. -/
def bookmarkIdOf (item : RawBookmarkItem) : String :=
  orStr item.bookmarkId (orStr item.id "")

/-- The stable external id of a highlight (src/weread.py lines 284-290). -/
def highlightExternalId (book_id : String) (item : RawBookmarkItem)
    (location : Option String) (highlight_text : String) : String :=
  if bookmarkIdOf item ≠ "" then
    "weread:" ++ book_id ++ ":bm:" ++ bookmarkIdOf item
  else
    "weread:" ++ book_id ++ ":h:" ++
      sha1Hex (book_id ++ "|" ++ location.getD "" ++ "|" ++ highlight_text)

/-- `_weread_book_url` (src/weread.py lines 208-210). -/
def weread_book_url (book_id : String) : String :=
  "https://weread.qq.com/web/reader/" ++ book_id

/-- The body of the `for item in updated` loop: `none` when the item is
skipped (`continue`). -/
def processBookmarkItem (book : Book) (chapters : List (String × String))
    (only_recent_days : Option Int) (now : Int) (item : RawBookmarkItem) :
    Option RWHighlight :=
  if clean_text (resolveHighlightText item) = "" then none
  else if should_include (resolveTs item now) only_recent_days now then
    some { text := clean_text (resolveHighlightText item),
           title := book.title,
           author := book.author,
           source_url := weread_book_url book.book_id,
           highlighted_at := unix_to_iso (resolveTs item now),
           note := if noteOf chapters item = "" then none
                   else some (noteOf chapters item),
           location := resolveLocation item,
           location_type := "weread",
           external_id := highlightExternalId book.book_id item
             (resolveLocation item) (clean_text (resolveHighlightText item)) }
  else none

/-- `_extract_highlights_from_bookmarklist`, modulo the HTTP fetch of `data`. -/
def extract_highlights_from_bookmarklist (book : Book) (data : BookmarklistData)
    (only_recent_days : Option Int) (now : Int) : List RWHighlight :=
  let chapters := buildChapters (data.chapters.getD []) []
  (data.updated.getD []).filterMap
    (processBookmarkItem book chapters only_recent_days now)

/-! ## `_extract_note_only_reviews` (src/weread.py lines 309-364) -/

/-- `r.get("content") or r.get("review") or r.get("text") or ""`. -/
def resolveReviewContent (r : RawReview) : String :=
  orStr r.content (orStr r.review (orStr r.text ""))

/-- `ts = int(r.get("createTime") or r.get("ctime") or 0)`, with the same
fall-back to now. -/
def resolveReviewTs (r : RawReview) (now : Int) : Int :=
  let t := orInt r.createTime (orInt r.ctime 0)
  if t ≤ 0 then now else t

/-- `r.get("reviewId") or r.get("id") or ""`. -/
def reviewIdOf (r : RawReview) : String :=
  orStr r.reviewId (orStr r.id "")

/-- The stable external id of a note-only review (src/weread.py lines 340-345). -/
def reviewExternalId (book_id : String) (r : RawReview) (content : String) : String :=
  if reviewIdOf r ≠ "" then
    "weread:" ++ book_id ++ ":rv:" ++ reviewIdOf r
  else
    "weread:" ++ book_id ++ ":rvh:" ++ sha1Hex (book_id ++ "|review|" ++ content)

/-- The body of the `for r in reviews` loop. -/
def processReviewItem (book : Book) (only_recent_days : Option Int) (now : Int)
    (r : RawReview) : Option RWHighlight :=
  if clean_text (resolveReviewContent r) = "" then none
  else if should_include (resolveReviewTs r now) only_recent_days now then
    some { text := clean_text (resolveReviewContent r),
           title := book.title,
           author := book.author,
           source_url := weread_book_url book.book_id,
           highlighted_at := unix_to_iso (resolveReviewTs r now),
           note := some "WeRead note (review/thought).",
           location := none,
           location_type := "weread",
           external_id := reviewExternalId book.book_id r
             (clean_text (resolveReviewContent r)) }
  else none

/-- `for k in ("reviews", "updated", "data", "items"): ... break`: the first
key whose value is a list (an empty list is a list and stops the search). -/
def reviewListOf (d : ReviewData) : List RawReview :=
  (([d.reviews, d.updated, d.data, d.items].findSome? id).getD [])

/-- `_extract_note_only_reviews`, modulo the HTTP fetch of `data`. -/
def extract_note_only_reviews (book : Book) (data : ReviewData)
    (only_recent_days : Option Int) (now : Int) : List RWHighlight :=
  (reviewListOf data).filterMap (processReviewItem book only_recent_days now)

/-! ## `_parse_cookie_value` (src/weread.py lines 92-95)

`re.search(rf"(?:^|;\s*){re.escape(key)}=([^;]+)", cookie)`: the leftmost
position where the pattern matches; the value is the maximal nonempty run of
non-`;` characters after `key=`.  Modelled for a key without whitespace or
regex metacharacters (the script only ever passes `"wr_vid"`); `\s` is
modelled at its ASCII core. -/

/-- The characters `\s` matches, at its ASCII core. -/
def reIsSpace (c : Char) : Bool :=
  c = ' ' ∨ c = '\t' ∨ c = '\n' ∨ c = '\r' ∨ c = '\x0b' ∨ c = '\x0c'

/-- Try `key=([^;]+)` at this position. -/
def tryKeyEq (key : List Char) (cs : List Char) : Option String :=
  if cs.take key.length = key then
    match cs.drop key.length with
    | '=' :: after =>
      let v := after.takeWhile (fun c => c ≠ ';')
      if v.isEmpty then none else some (String.mk v)
    | _ => none
  else none

/-- Try the whole pattern with its match starting at this position:
the `^` alternative (only at the string head) or `;\s*` then the key. -/
def tryPatternAt (key : List Char) (cs : List Char) (atStart : Bool) : Option String :=
  match (if atStart then tryKeyEq key cs else none) with
  | some v => some v
  | none =>
    match cs with
    | ';' :: rest => tryKeyEq key (rest.dropWhile reIsSpace)
    | _ => none

/-- Scan match positions left to right (`re.search`). -/
def cookieSearch (key : List Char) : List Char → Bool → Option String
  | cs, atStart =>
    match tryPatternAt key cs atStart with
    | some v => some v
    | none =>
      match cs with
      | [] => none
      | _ :: rest => cookieSearch key rest false

/-- `_parse_cookie_value(cookie, key)`. -/
def parse_cookie_value (cookie key : String) : Option String :=
  cookieSearch key.data cookie.data true

/-! ## `main` (src/weread.py lines 367-431)

The orchestrator, embedded over an explicit environment and an explicit
"world" that answers the network fetches.  The trace of network requests the
run issues is returned next to the outcome; a fetch the world answers with
`none` is an attempted request that raised (the per-book `try` catches it).
The bookshelf fetch and the Readwise posts are modelled as always
succeeding: no claim concerns their failure. -/

/-- The recognized environment variables (`os.environ.get(name, "")`). -/
structure Env where
  WEREAD_COOKIE : String := ""
  READWISE_TOKEN : String := ""
  WEREAD_USER_VID : String := ""
  ONLY_RECENT_DAYS : String := ""
  DRY_RUN : String := ""
deriving DecidableEq, Repr

/-- One network request of a run. -/
inductive NetCall where
  | shelfGet (userVid : String)
  | bookmarkGet (bookId : String)
  | reviewGet (bookId : String)
  | rwPost (count : Nat)
deriving DecidableEq, Repr

/-- The responses the outside world gives this run. -/
structure World where
  shelf : ShelfData
  bookmarklist : String → Option BookmarklistData
  reviewList : String → Option ReviewData
  now : Int

/-- How the process ends: `raise SystemExit(msg)` / an uncaught error
(exit status 1, `msg` printed), or a completed run. -/
inductive MainExit where
  | fatal (msg : String)
  | finished
deriving DecidableEq, Repr

/-- The per-book loop (src/weread.py lines 400-412): highlights are appended
before the review fetch, so a failing review fetch keeps them. -/
def perBookLoop (w : World) (only_recent_days : Option Int) :
    List Book → List NetCall × List RWHighlight
  | [] => ([], [])
  | book :: rest =>
    match w.bookmarklist book.book_id with
    | none =>
      let (calls, acc) := perBookLoop w only_recent_days rest
      (NetCall.bookmarkGet book.book_id :: calls, acc)
    | some bm =>
      let hs := extract_highlights_from_bookmarklist book bm only_recent_days w.now
      match w.reviewList book.book_id with
      | none =>
        let (calls, acc) := perBookLoop w only_recent_days rest
        (NetCall.bookmarkGet book.book_id :: NetCall.reviewGet book.book_id :: calls,
         hs ++ acc)
      | some rv =>
        let ns := extract_note_only_reviews book rv only_recent_days w.now
        let (calls, acc) := perBookLoop w only_recent_days rest
        (NetCall.bookmarkGet book.book_id :: NetCall.reviewGet book.book_id :: calls,
         hs ++ ns ++ acc)

/-- `range(0, len(l), 200)` then `l[start:start+200]`, skipping falsy (empty)
chunks (src/weread.py lines 414-425). -/
def mainChunks (l : List RWHighlight) : List (List RWHighlight) :=
  ((List.range' 0 ((l.length + 199) / 200) 200).map
    (fun start => (l.drop start).take 200)).filter (fun c => !c.isEmpty)

/-- `main()`: the configuration phase, the bookshelf fetch, the per-book
loop and the chunked posting, as a request trace plus an outcome. -/
def mainRun (env : Env) (w : World) : List NetCall × MainExit :=
  let weread_cookie := pyStrip env.WEREAD_COOKIE
  let readwise_token := pyStrip env.READWISE_TOKEN
  if weread_cookie = "" then ([], .fatal "Missing env WEREAD_COOKIE")
  else if readwise_token = "" then ([], .fatal "Missing env READWISE_TOKEN")
  else
    let user_vid0 := pyStrip env.WEREAD_USER_VID
    let user_vid :=
      if user_vid0 = "" then (parse_cookie_value weread_cookie "wr_vid").getD ""
      else user_vid0
    if user_vid = "" then
      ([], .fatal ("Could not determine userVid. Set env WEREAD_USER_VID explicitly, " ++
        "or ensure cookie contains wr_vid."))
    else
      let ord := pyStrip env.ONLY_RECENT_DAYS
      match (if ord = "" then some none else ord.toInt?.map some) with
      | none => ([], .fatal "ValueError: invalid literal for int()")
      | some only_recent_days =>
        let dry_run := pyStrip env.DRY_RUN = "1"
        let books := bookshelf w.shelf
        if books.isEmpty then ([NetCall.shelfGet user_vid], .finished)
        else
          let (calls, all_highlights) := perBookLoop w only_recent_days books
          if dry_run then (NetCall.shelfGet user_vid :: calls, .finished)
          else
            (NetCall.shelfGet user_vid :: calls ++
              (mainChunks all_highlights).map (fun c => NetCall.rwPost c.length),
             .finished)

/-! ## The spec's order-preserving deduplication, for claim C2 -/

/-- Keep the first occurrence of every element, in order. -/
def firstOccurDedup : List String → List String
  | [] => []
  | x :: xs => x :: firstOccurDedup (xs.filter (fun y => !(y == x)))
termination_by l => l.length
decreasing_by
  simp only [List.length_cons]
  exact Nat.lt_succ_of_le (List.length_filter_le _ _)

/-- The purely-numeric ids of the merged raw shelf list, in order. -/
def numericIds (d : ShelfData) : List String :=
  (mergedRaw d).filterMap
    (fun b => if strIsDigit (rawBookId b) then some (rawBookId b) else none)

/-! ## Concrete records used by the claim witnesses and counterexamples -/

/-- The item of the C6 counterexample: `createTime` reports −5 (truthy, so the
`or` chain stops there), `updated` reports the positive 7. -/
def c6Item : RawBookmarkItem :=
  { markText := some "Hello", createTime := some (-5), updated := some 7 }

def c7Review : RawReview := { content := some "A thought", reviewId := some "r9" }

def c7Out : RWHighlight :=
  { text := "A thought", title := "T", author := "A",
    source_url := "https://weread.qq.com/web/reader/123",
    highlighted_at := "1970-01-01T00:00:00Z",
    note := some "WeRead note (review/thought).",
    location := none, location_type := "weread",
    external_id := "weread:123:rv:r9" }

def c1Item : RawBookmarkItem := { markText := some "Hello", bookmarkId := some "b1" }

def c1Out : RWHighlight :=
  { text := "Hello", title := "T", author := "A",
    source_url := "https://weread.qq.com/web/reader/123",
    highlighted_at := "1970-01-01T00:00:00Z",
    note := none, location := none, location_type := "weread",
    external_id := "weread:123:bm:b1" }

def c4Item : RawBookmarkItem :=
  { markText := some "Hello", chapterUid := some 3, bookmarkId := some "b7" }

def c4Out : RWHighlight :=
  { text := "Hello", title := "T", author := "A",
    source_url := "https://weread.qq.com/web/reader/123",
    highlighted_at := "1970-01-01T00:00:00Z",
    note := some "— Chapter: Intro", location := none, location_type := "weread",
    external_id := "weread:123:bm:b7" }

/-! ## Shape lemmas for the per-item processors -/

/-- Everything an emitted highlight is, spelled out. -/
theorem processBookmarkItem_some {book : Book} {ch : List (String × String)}
    {days : Option Int} {now : Int} {item : RawBookmarkItem} {h : RWHighlight}
    (hp : processBookmarkItem book ch days now item = some h) :
    clean_text (resolveHighlightText item) ≠ "" ∧
    should_include (resolveTs item now) days now = true ∧
    h = { text := clean_text (resolveHighlightText item),
          title := book.title,
          author := book.author,
          source_url := weread_book_url book.book_id,
          highlighted_at := unix_to_iso (resolveTs item now),
          note := if noteOf ch item = "" then none else some (noteOf ch item),
          location := resolveLocation item,
          location_type := "weread",
          external_id := highlightExternalId book.book_id item (resolveLocation item)
            (clean_text (resolveHighlightText item)) } := by
  unfold processBookmarkItem at hp
  split at hp
  · exact absurd hp (by simp)
  · split at hp
    · next hne hinc => exact ⟨hne, hinc, (Option.some.inj hp).symm⟩
    · exact absurd hp (by simp)

/-- Everything an emitted note-only review is, spelled out. -/
theorem processReviewItem_some {book : Book} {days : Option Int} {now : Int}
    {r : RawReview} {h : RWHighlight}
    (hp : processReviewItem book days now r = some h) :
    clean_text (resolveReviewContent r) ≠ "" ∧
    should_include (resolveReviewTs r now) days now = true ∧
    h = { text := clean_text (resolveReviewContent r),
          title := book.title,
          author := book.author,
          source_url := weread_book_url book.book_id,
          highlighted_at := unix_to_iso (resolveReviewTs r now),
          note := some "WeRead note (review/thought).",
          location := none,
          location_type := "weread",
          external_id := reviewExternalId book.book_id r
            (clean_text (resolveReviewContent r)) } := by
  unfold processReviewItem at hp
  split at hp
  · exact absurd hp (by simp)
  · split at hp
    · next hne hinc => exact ⟨hne, hinc, (Option.some.inj hp).symm⟩
    · exact absurd hp (by simp)

/-- Chaining falsy-or-empty cleanups through one `or` step. -/
theorem clean_orStr_empty {a : Option String} {b : String}
    (ha : clean_text (orStr a "") = "") (hb : clean_text b = "") :
    clean_text (orStr a b) = "" := by
  cases a with
  | none => simpa [orStr] using hb
  | some s =>
    by_cases hs : s = ""
    · simpa [orStr, hs] using hb
    · simpa [orStr, hs] using ha

/-- C3: `normalizeHighlights` resolves the highlighted text by trying
`markText`, `abstract`, `content`, `text` in that order (each used exactly
when present and nonempty while all earlier candidates are absent or empty);
an item none of whose candidates yields non-empty text after cleanup is
skipped entirely, and every emitted highlight carries the cleaned resolved
text, which is never empty. -/
theorem C3_text_resolution_and_skip :
    (∀ (book : Book) (ch : List (String × String)) (days : Option Int) (now : Int)
        (item : RawBookmarkItem),
      clean_text (orStr item.markText "") = "" →
      clean_text (orStr item.abstract "") = "" →
      clean_text (orStr item.content "") = "" →
      clean_text (orStr item.text "") = "" →
      processBookmarkItem book ch days now item = none) ∧
    (∀ (book : Book) (ch : List (String × String)) (days : Option Int) (now : Int)
        (item : RawBookmarkItem) (h : RWHighlight),
      processBookmarkItem book ch days now item = some h →
      h.text = clean_text (resolveHighlightText item) ∧ h.text ≠ "") ∧
    (∀ (item : RawBookmarkItem) (s : String), item.markText = some s → s ≠ "" →
      resolveHighlightText item = s) ∧
    (∀ (item : RawBookmarkItem) (s : String),
      (item.markText = none ∨ item.markText = some "") →
      item.abstract = some s → s ≠ "" → resolveHighlightText item = s) ∧
    (∀ (item : RawBookmarkItem) (s : String),
      (item.markText = none ∨ item.markText = some "") →
      (item.abstract = none ∨ item.abstract = some "") →
      item.content = some s → s ≠ "" → resolveHighlightText item = s) ∧
    (∀ (item : RawBookmarkItem) (s : String),
      (item.markText = none ∨ item.markText = some "") →
      (item.abstract = none ∨ item.abstract = some "") →
      (item.content = none ∨ item.content = some "") →
      item.text = some s → s ≠ "" → resolveHighlightText item = s) := by
  refine ⟨?_, ?_, ?_, ?_, ?_, ?_⟩
  · intro book ch days now item h1 h2 h3 h4
    have hres : clean_text (resolveHighlightText item) = "" :=
      clean_orStr_empty h1 (clean_orStr_empty h2 (clean_orStr_empty h3 h4))
    unfold processBookmarkItem
    rw [hres]
    simp
  · intro book ch days now item h hp
    obtain ⟨hne, -, rfl⟩ := processBookmarkItem_some hp
    exact ⟨rfl, hne⟩
  · intro item s hm hs
    simp [resolveHighlightText, hm, orStr, hs]
  · intro item s hm ha hs
    rcases hm with hm | hm <;> simp [resolveHighlightText, hm, ha, orStr, hs]
  · intro item s hm ha hc hs
    rcases hm with hm | hm <;> rcases ha with ha | ha <;>
      simp [resolveHighlightText, hm, ha, hc, orStr, hs]
  · intro item s hm ha hc ht hs
    rcases hm with hm | hm <;> rcases ha with ha | ha <;> rcases hc with hc | hc <;>
      simp [resolveHighlightText, hm, ha, hc, ht, orStr, hs]

/-- C3 witness: a concrete item whose only candidate field is whitespace is
dropped. -/
theorem C3_witness :
    processBookmarkItem ⟨"123", "T", "A", none⟩ [] none 0
      { markText := some "  ", abstract := some "\n\n" } = none :=
  C3_text_resolution_and_skip.1 ⟨"123", "T", "A", none⟩ [] none 0
    { markText := some "  ", abstract := some "\n\n" }
    (by decide) (by decide) (by decide) (by decide)

/-- C5 counterexample: a window of 0 days is configured, the record's
timestamp (999999) is strictly before the cutoff `now - 0*86400 = 1000000`,
yet the record is NOT dropped (`_should_include` treats a falsy 0 like an
unset window). -/
theorem C5_counterexample :
    should_include 999999 (some 0) 1000000 = true ∧
    (999999 : Int) < 1000000 - 0 * 86400 := by
  exact ⟨rfl, by decide⟩

/-- C5 (amended): for a configured window of N > 0 days a record is dropped
iff its timestamp is strictly before `now − N*86400`; the boundary record is
kept and one second earlier is dropped; with no window configured nothing is
dropped, and a configured window of 0 days is treated like an unset one
(nothing dropped). -/
theorem C5_recency_filter (ts now n : Int) (hn : 0 < n) :
    (should_include ts (some n) now = true ↔ ¬ ts < now - n * 86400) ∧
    should_include ts none now = true ∧
    should_include (now - n * 86400) (some n) now = true ∧
    should_include (now - n * 86400 - 1) (some n) now = false ∧
    should_include ts (some 0) now = true := by
  have hn' : n ≠ 0 := ne_of_gt hn
  refine ⟨?_, rfl, ?_, ?_, rfl⟩
  · simp [should_include, hn']
  · simp [should_include, hn']
  · simp [should_include, hn']

/-- C5 witness: the amended filter at a concrete window. -/
theorem C5_witness :
    (should_include 17 (some 2) 100000 = true ↔ ¬ (17 : Int) < 100000 - 2 * 86400) ∧
    should_include 17 none 100000 = true ∧
    should_include (100000 - 2 * 86400) (some 2) 100000 = true ∧
    should_include (100000 - 2 * 86400 - 1) (some 2) 100000 = false ∧
    should_include 17 (some 0) 100000 = true :=
  C5_recency_filter 17 100000 2 (by norm_num)


/-- C6 counterexample: `updated` reports a positive value (7), yet the
resolved timestamp is the current time (999): the `or` chain takes the first
present-and-nonzero field, `createTime = -5`, and `-5 ≤ 0` falls back to now
without ever consulting `updated`. -/
theorem C6_counterexample :
    c6Item.createTime = some (-5) ∧ c6Item.updated = some 7 ∧
    resolveTs c6Item 999 = 999 ∧ (999 : Int) ≠ 7 ∧
    (processBookmarkItem ⟨"123", "T", "A", none⟩ [] none 999 c6Item).map
      (fun h => h.highlighted_at) = some (unix_to_iso 999) ∧
    unix_to_iso 999 ≠ unix_to_iso 7 :=
  ⟨rfl, rfl, by decide, by decide, by decide, by decide⟩

/-- C6 (amended): the timestamp is resolved as the first present-and-nonzero
field among `createTime`, `updated` (0 if neither), and the current time is
used exactly when that resolved chain value is ≤ 0.  In particular a positive
`createTime` is used; a positive `updated` is used only when `createTime` is
absent or zero; and when neither field is present the current time is used. -/
theorem C6_timestamp_resolution (item : RawBookmarkItem) (now : Int) :
    (orInt item.createTime (orInt item.updated 0) ≤ 0 → resolveTs item now = now) ∧
    (0 < orInt item.createTime (orInt item.updated 0) →
      resolveTs item now = orInt item.createTime (orInt item.updated 0)) ∧
    (∀ c : Int, item.createTime = some c → 0 < c → resolveTs item now = c) ∧
    (∀ u : Int, (item.createTime = none ∨ item.createTime = some 0) →
      item.updated = some u → 0 < u → resolveTs item now = u) ∧
    (item.createTime = none → item.updated = none → resolveTs item now = now) := by
  refine ⟨?_, ?_, ?_, ?_, ?_⟩
  · intro hle
    simp [resolveTs, hle]
  · intro hpos
    simp [resolveTs, not_le.mpr hpos]
  · intro c hc hcpos
    have : c ≠ 0 := ne_of_gt hcpos
    simp [resolveTs, hc, orInt, this, not_le.mpr hcpos]
  · intro u hc hu hupos
    have hu0 : u ≠ 0 := ne_of_gt hupos
    rcases hc with hc | hc <;>
      simp [resolveTs, hc, hu, orInt, hu0, not_le.mpr hupos]
  · intro hc hu
    simp [resolveTs, hc, hu, orInt]

/-- C6 witness: the amended resolution at a concrete item whose chain value
is negative. -/
theorem C6_witness : resolveTs c6Item 999 = 999 :=
  (C6_timestamp_resolution c6Item 999).1 (by decide)

/-- C7: every emitted note-only review has the cleaned note content as its
highlight text, the fixed label as its note, and no location. -/
theorem C7_note_emission (book : Book) (days : Option Int) (now : Int)
    (r : RawReview) (h : RWHighlight)
    (hp : processReviewItem book days now r = some h) :
    h.text = clean_text (resolveReviewContent r) ∧
    h.note = some "WeRead note (review/thought)." ∧
    h.location = none := by
  obtain ⟨-, -, rfl⟩ := processReviewItem_some hp
  exact ⟨rfl, rfl, rfl⟩


/-- C7 witness: the concrete emitted review record. -/
theorem C7_witness :
    c7Out.text = clean_text (resolveReviewContent c7Review) ∧
    c7Out.note = some "WeRead note (review/thought)." ∧
    c7Out.location = none :=
  C7_note_emission ⟨"123", "T", "A", none⟩ none 0 c7Review c7Out (by decide)

/-- C1: external-id derivation follows the documented scheme and is
deterministic.  A highlight with a truthy explicit identifier
(`bookmarkId or id`) gets `weread:<bookId>:bm:<identifier>`; one without
gets `weread:<bookId>:h:<sha1(bookId|location|text)>` with `""` for an
absent location; a review with an explicit id gets `weread:<bookId>:rv:<id>`
and one without `weread:<bookId>:rvh:<sha1(bookId|review|content)>`; and two
id-less items with the same book id, location and text get the same
external-id whatever the run's clock, chapter table or recency window. -/
theorem C1_external_id_scheme :
    (∀ (book : Book) (ch : List (String × String)) (days : Option Int) (now : Int)
        (item : RawBookmarkItem) (h : RWHighlight),
      processBookmarkItem book ch days now item = some h →
      bookmarkIdOf item ≠ "" →
      h.external_id = "weread:" ++ book.book_id ++ ":bm:" ++ bookmarkIdOf item) ∧
    (∀ (book : Book) (ch : List (String × String)) (days : Option Int) (now : Int)
        (item : RawBookmarkItem) (h : RWHighlight),
      processBookmarkItem book ch days now item = some h →
      bookmarkIdOf item = "" →
      h.external_id = "weread:" ++ book.book_id ++ ":h:" ++
        sha1Hex (book.book_id ++ "|" ++ (resolveLocation item).getD "" ++ "|" ++ h.text)) ∧
    (∀ (book : Book) (days : Option Int) (now : Int) (r : RawReview) (h : RWHighlight),
      processReviewItem book days now r = some h →
      reviewIdOf r ≠ "" →
      h.external_id = "weread:" ++ book.book_id ++ ":rv:" ++ reviewIdOf r) ∧
    (∀ (book : Book) (days : Option Int) (now : Int) (r : RawReview) (h : RWHighlight),
      processReviewItem book days now r = some h →
      reviewIdOf r = "" →
      h.external_id = "weread:" ++ book.book_id ++ ":rvh:" ++
        sha1Hex (book.book_id ++ "|review|" ++ h.text)) ∧
    (∀ (b₁ b₂ : Book) (ch₁ ch₂ : List (String × String)) (d₁ d₂ : Option Int)
        (n₁ n₂ : Int) (i₁ i₂ : RawBookmarkItem) (h₁ h₂ : RWHighlight),
      processBookmarkItem b₁ ch₁ d₁ n₁ i₁ = some h₁ →
      processBookmarkItem b₂ ch₂ d₂ n₂ i₂ = some h₂ →
      b₁.book_id = b₂.book_id →
      bookmarkIdOf i₁ = "" → bookmarkIdOf i₂ = "" →
      resolveLocation i₁ = resolveLocation i₂ →
      h₁.text = h₂.text →
      h₁.external_id = h₂.external_id) := by
  refine ⟨?_, ?_, ?_, ?_, ?_⟩
  · intro book ch days now item h hp hbm
    obtain ⟨-, -, rfl⟩ := processBookmarkItem_some hp
    simp only [highlightExternalId, if_pos hbm]
  · intro book ch days now item h hp hbm
    obtain ⟨-, -, rfl⟩ := processBookmarkItem_some hp
    simp only [highlightExternalId, hbm]
    simp
  · intro book days now r h hp hrv
    obtain ⟨-, -, rfl⟩ := processReviewItem_some hp
    simp only [reviewExternalId, if_pos hrv]
  · intro book days now r h hp hrv
    obtain ⟨-, -, rfl⟩ := processReviewItem_some hp
    simp only [reviewExternalId, hrv]
    simp
  · intro b₁ b₂ ch₁ ch₂ d₁ d₂ n₁ n₂ i₁ i₂ h₁ h₂ hp₁ hp₂ hbid hbm₁ hbm₂ hloc htext
    obtain ⟨-, -, rfl⟩ := processBookmarkItem_some hp₁
    obtain ⟨-, -, rfl⟩ := processBookmarkItem_some hp₂
    simp only [highlightExternalId, hbm₁, hbm₂] at *
    simp only [hbid, hloc] at *
    simp_all


/-- C1 witness: the explicit-id branch at a concrete item. -/
theorem C1_witness :
    c1Out.external_id = "weread:" ++ Book.book_id ⟨"123", "T", "A", none⟩ ++ ":bm:" ++
      bookmarkIdOf c1Item :=
  C1_external_id_scheme.1 ⟨"123", "T", "A", none⟩ [] none 0 c1Item c1Out
    (by decide) (by decide)

/-! ## The chapters dict stores only truthy titles (for C4) -/

/-- A string append with a nonempty left part is nonempty. -/
theorem append_ne_empty_left (a b : String) (ha : a ≠ "") : a ++ b ≠ "" := by
  intro h
  have hd := congrArg String.data h
  simp [String.data_append] at hd
  exact ha (String.ext (by simp [hd.1]))

theorem dictSet_mem {m : List (String × String)} {k v : String} {p : String × String}
    (hp : p ∈ dictSet m k v) : p ∈ m ∨ p = (k, v) := by
  induction m with
  | nil => simpa [dictSet] using hp
  | cons q rest ih =>
    unfold dictSet at hp
    split at hp
    · rcases List.mem_cons.mp hp with h | h
      · right; exact h
      · left; exact List.mem_cons_of_mem _ h
    · rcases List.mem_cons.mp hp with h | h
      · left; exact h ▸ List.mem_cons_self _ _
      · rcases ih h with h' | h'
        · left; exact List.mem_cons_of_mem _ h'
        · right; exact h'

theorem dictGet_mem {m : List (String × String)} {k t : String}
    (h : dictGet m k = some t) : (k, t) ∈ m := by
  induction m with
  | nil => simp [dictGet] at h
  | cons q rest ih =>
    unfold dictGet at h
    split at h
    · next heq => exact heq ▸ (Option.some.inj h) ▸ List.mem_cons_self _ _
    · exact List.mem_cons_of_mem _ (ih h)

theorem buildChapters_values_ne {cs : List RawChapter} {m : List (String × String)}
    (hm : ∀ p ∈ m, p.2 ≠ "") : ∀ p ∈ buildChapters cs m, p.2 ≠ "" := by
  induction cs generalizing m with
  | nil => simpa [buildChapters] using hm
  | cons c rest ih =>
    unfold buildChapters
    split
    · next hcond =>
      refine ih ?_
      intro p hp
      rcases dictSet_mem hp with h | h
      · exact hm p h
      · rw [h]; exact hcond.2
    · exact ih hm

/-- C4: when the item's chapter id resolves to a known chapter title, the
emitted note carries the `— Chapter: <title>` suffix: appended after the
cleaned comment behind a blank line when a comment was resolved, and as the
note's entire content otherwise. -/
theorem C4_chapter_note (book : Book) (cs : List RawChapter) (days : Option Int)
    (now : Int) (item : RawBookmarkItem) (h : RWHighlight) (t : String)
    (hc : dictGet (buildChapters cs []) (itemChapterKey item) = some t)
    (hp : processBookmarkItem book (buildChapters cs []) days now item = some h) :
    (clean_text (resolveComment item) = "" → h.note = some ("— Chapter: " ++ t)) ∧
    (clean_text (resolveComment item) ≠ "" →
      h.note = some (clean_text (resolveComment item) ++ "\n\n— Chapter: " ++ t)) := by
  have ht : t ≠ "" :=
    buildChapters_values_ne (by simp) (itemChapterKey item, t) (dictGet_mem hc)
  obtain ⟨-, -, rfl⟩ := processBookmarkItem_some hp
  constructor
  · intro hcm
    have hnote : noteOf (buildChapters cs []) item = "— Chapter: " ++ t := by
      unfold noteOf
      rw [hc]
      simp [ht, hcm]
    have hne : ("— Chapter: " ++ t) ≠ "" := append_ne_empty_left _ _ (by decide)
    simp [hnote, hne]
  · intro hcm
    have hnote : noteOf (buildChapters cs []) item =
        clean_text (resolveComment item) ++ "\n\n— Chapter: " ++ t := by
      unfold noteOf
      rw [hc]
      simp [ht, hcm]
    have hne : clean_text (resolveComment item) ++ "\n\n— Chapter: " ++ t ≠ "" :=
      append_ne_empty_left _ _
        (append_ne_empty_left _ _ hcm)
    simp [hnote, hne]


/-- C4 witness: the no-comment case at a concrete item; the note is exactly
the chapter line. -/
theorem C4_witness :
    (clean_text (resolveComment c4Item) = "" →
      c4Out.note = some ("— Chapter: " ++ "Intro")) ∧
    (clean_text (resolveComment c4Item) ≠ "" →
      c4Out.note = some (clean_text (resolveComment c4Item) ++ "\n\n— Chapter: " ++ "Intro")) :=
  C4_chapter_note ⟨"123", "T", "A", none⟩ [{ chapterUid := some 3, title := some "Intro" }]
    none 0 c4Item c4Out "Intro" (by decide) (by decide)

/-- Splitting the tag off an external id behind the `weread:<id>:` prefix. -/
theorem colon_tag_split (id tag suf : String) :
    "weread:" ++ id ++ (":" ++ tag) ++ suf = "weread:" ++ id ++ ":" ++ (tag ++ suf) := by
  simp only [String.append_assoc]

/-- C10: every emitted record, from either normalizer, tags
`location_type = "weread"` and `external_source = "weread"`, derives its
external id under the `weread:<bookId>:` prefix of its book, and never
carries an empty-string note. -/
theorem C10_emission_invariants (book : Book) (bmData : BookmarklistData)
    (rvData : ReviewData) (days : Option Int) (now : Int) :
    (∀ h ∈ extract_highlights_from_bookmarklist book bmData days now,
      h.location_type = "weread" ∧ h.external_source = "weread" ∧
      (∃ rest, h.external_id = "weread:" ++ book.book_id ++ ":" ++ rest) ∧
      (h.note = none ∨ ∃ s, h.note = some s ∧ s ≠ "")) ∧
    (∀ h ∈ extract_note_only_reviews book rvData days now,
      h.location_type = "weread" ∧ h.external_source = "weread" ∧
      (∃ rest, h.external_id = "weread:" ++ book.book_id ++ ":" ++ rest) ∧
      (h.note = none ∨ ∃ s, h.note = some s ∧ s ≠ "")) := by
  constructor
  · intro h hmem
    unfold extract_highlights_from_bookmarklist at hmem
    obtain ⟨item, -, hp⟩ := List.mem_filterMap.mp hmem
    obtain ⟨-, -, rfl⟩ := processBookmarkItem_some hp
    refine ⟨rfl, rfl, ?_, ?_⟩
    · by_cases hb : bookmarkIdOf item = ""
      · refine ⟨"h:" ++ sha1Hex (book.book_id ++ "|" ++ (resolveLocation item).getD "" ++
          "|" ++ clean_text (resolveHighlightText item)), ?_⟩
        simp only [highlightExternalId, hb]
        rw [show (":h:" : String) = ":" ++ "h:" from rfl]
        exact colon_tag_split _ _ _
      · refine ⟨"bm:" ++ bookmarkIdOf item, ?_⟩
        simp only [highlightExternalId, if_pos hb]
        rw [show (":bm:" : String) = ":" ++ "bm:" from rfl]
        exact colon_tag_split _ _ _
    · by_cases hn : noteOf (buildChapters (bmData.chapters.getD []) []) item = ""
      · left
        simp [hn]
      · right
        exact ⟨noteOf (buildChapters (bmData.chapters.getD []) []) item, by simp [hn], hn⟩
  · intro h hmem
    unfold extract_note_only_reviews at hmem
    obtain ⟨r, -, hp⟩ := List.mem_filterMap.mp hmem
    obtain ⟨-, -, rfl⟩ := processReviewItem_some hp
    refine ⟨rfl, rfl, ?_, ?_⟩
    · by_cases hr : reviewIdOf r = ""
      · refine ⟨"rvh:" ++ sha1Hex (book.book_id ++ "|review|" ++
          clean_text (resolveReviewContent r)), ?_⟩
        simp only [reviewExternalId, hr]
        rw [show (":rvh:" : String) = ":" ++ "rvh:" from rfl]
        exact colon_tag_split _ _ _
      · refine ⟨"rv:" ++ reviewIdOf r, ?_⟩
        simp only [reviewExternalId, if_pos hr]
        rw [show (":rv:" : String) = ":" ++ "rv:" from rfl]
        exact colon_tag_split _ _ _
    · right
      exact ⟨"WeRead note (review/thought).", rfl, by decide⟩

/-! ## C2: the bookshelf merge deduplicates by first occurrence -/

theorem mem_firstOccurDedup (a : String) (l : List String) :
    a ∈ firstOccurDedup l ↔ a ∈ l := by
  induction l using firstOccurDedup.induct with
  | case1 => simp [firstOccurDedup]
  | case2 x xs ih =>
    rw [firstOccurDedup]
    by_cases hax : a = x
    · simp [hax]
    · simp only [List.mem_cons, hax, false_or]
      rw [ih]
      simp [List.mem_filter, hax]

theorem firstOccurDedup_nodup (l : List String) : (firstOccurDedup l).Nodup := by
  induction l using firstOccurDedup.induct with
  | case1 => simp [firstOccurDedup]
  | case2 x xs ih =>
    rw [firstOccurDedup]
    refine List.nodup_cons.mpr ⟨?_, ih⟩
    intro hmem
    have := (mem_firstOccurDedup x _).mp hmem
    simp [List.mem_filter] at this

/-- The shelf loop refines first-occurrence dedup of the digit-filtered ids,
relative to the ids already seen. -/
theorem shelfLoop_ids (bs : List RawShelfBook) (seen : List String) :
    (shelfLoop bs seen).map (fun b => b.book_id) =
    firstOccurDedup
      ((bs.filterMap (fun b =>
          if strIsDigit (rawBookId b) then some (rawBookId b) else none)).filter
        (fun y => !seen.contains y)) := by
  induction bs generalizing seen with
  | nil => simp [shelfLoop, firstOccurDedup]
  | cons b rest ih =>
    by_cases hd : strIsDigit (rawBookId b)
    · by_cases hs : seen.contains (rawBookId b)
      · rw [shelfLoop]
        simp only [hd, Bool.not_true, if_pos hs]
        rw [List.filterMap_cons]
        simp only [hd, if_pos, List.filter_cons, hs, Bool.not_true]
        simp only [Bool.false_eq_true, if_false]
        simp [ih]
      · rw [shelfLoop]
        simp only [hd, Bool.not_true, hs]
        simp only [Bool.false_eq_true, if_false, List.map_cons]
        rw [List.filterMap_cons]
        simp only [hd, if_pos, List.filter_cons, hs, Bool.not_false]
        rw [firstOccurDedup]
        rw [ih (rawBookId b :: seen)]
        congr 1
        congr 1
        rw [List.filter_filter]
        apply List.filter_congr
        intro a _
        simp only [List.contains_cons]
        cases hax : a == rawBookId b <;> simp [hax]
    · rw [shelfLoop]
      simp only [hd, Bool.not_false, if_pos]
      rw [List.filterMap_cons]
      simp only [hd, Bool.false_eq_true, if_false]
      exact ih seen

/-- C2: `bookshelf` returns exactly the purely-numeric book ids of the merged
sub-lists, each exactly once, in order of first occurrence; non-numeric ids
are excluded. -/
theorem C2_bookshelf_dedup (d : ShelfData) :
    (bookshelf d).map (fun b => b.book_id) = firstOccurDedup (numericIds d) ∧
    ((bookshelf d).map (fun b => b.book_id)).Nodup ∧
    (∀ bid, bid ∈ (bookshelf d).map (fun b => b.book_id) ↔ bid ∈ numericIds d) := by
  have hmain : (bookshelf d).map (fun b => b.book_id) = firstOccurDedup (numericIds d) := by
    unfold bookshelf numericIds
    rw [shelfLoop_ids]
    congr 1
    simp
  refine ⟨hmain, ?_, ?_⟩
  · rw [hmain]
    exact firstOccurDedup_nodup _
  · intro bid
    rw [hmain]
    exact mem_firstOccurDedup bid _

/-- C2 witness: a concrete shelf with a duplicate id across sub-lists and a
non-numeric entry. -/
theorem C2_witness :
    (bookshelf { finishReadBooks := some [{ bookId := some "111" }, { bookId := some "abc" }],
                 recentBooks := some [{ bookId := some "222" }, { bookId := some "111" }] }).map
        (fun b => b.book_id) =
      firstOccurDedup (numericIds
        { finishReadBooks := some [{ bookId := some "111" }, { bookId := some "abc" }],
          recentBooks := some [{ bookId := some "222" }, { bookId := some "111" }] }) :=
  (C2_bookshelf_dedup _).1

/-! ## C8: the chunking loop -/

/-- Shifting the slice starts by one chunk is slicing the dropped list. -/
theorem mainChunks_shift (l : List RWHighlight) (m s : Nat) :
    (List.range' (s + 200) m 200).map (fun st => (l.drop st).take 200) =
    (List.range' s m 200).map (fun st => ((l.drop 200).drop st).take 200) := by
  induction m generalizing s with
  | zero => rfl
  | succ m ih =>
    rw [List.range'_succ, List.range'_succ, List.map_cons, List.map_cons]
    congr 1
    · rw [List.drop_drop]
      congr 2
      omega
    · rw [← ih (s + 200)]

/-- The Python `range`/slice loop unfolds like take/drop recursion. -/
theorem mainChunks_eq (l : List RWHighlight) :
    mainChunks l = if l = [] then [] else l.take 200 :: mainChunks (l.drop 200) := by
  by_cases hl : l = []
  · subst hl
    rfl
  · rw [if_neg hl]
    have hlen : l.length ≠ 0 := fun h => hl (List.length_eq_zero.mp h)
    have hcount : (l.length + 199) / 200 = ((l.drop 200).length + 199) / 200 + 1 := by
      rw [List.length_drop]
      omega
    unfold mainChunks
    rw [hcount, List.range'_succ, List.map_cons, List.drop_zero]
    rw [show (0 + 200 : Nat) = 200 from rfl]
    rw [mainChunks_shift l _ 0]
    have htake_ne : l.take 200 ≠ [] := by
      intro h
      rcases List.take_eq_nil_iff.mp h with h' | h'
      · exact absurd h' (by norm_num)
      · exact hl h'
    have htake : (!(l.take 200).isEmpty) = true := by
      simp [List.isEmpty_iff, htake_ne]
    rw [List.filter_cons]
    simp only [htake]
    rfl

/-- C8: the accumulated list is split into consecutive chunks: each dispatched
chunk is nonempty with at most 200 items, every chunk but possibly the last
has exactly 200, and their concatenation in dispatch order is the original
list. -/
theorem C8_chunking (l : List RWHighlight) :
    (mainChunks l).flatten = l ∧
    (∀ c ∈ mainChunks l, c ≠ [] ∧ c.length ≤ 200) ∧
    (∀ c ∈ (mainChunks l).dropLast, c.length = 200) := by
  have key : ∀ (n : Nat) (l : List RWHighlight), l.length ≤ n →
      (mainChunks l).flatten = l ∧
      (∀ c ∈ mainChunks l, c ≠ [] ∧ c.length ≤ 200) ∧
      (∀ c ∈ (mainChunks l).dropLast, c.length = 200) := by
    intro n
    induction n with
    | zero =>
      intro l hl
      have : l = [] := List.length_eq_zero.mp (Nat.le_zero.mp hl)
      subst this
      simp [mainChunks_eq]
    | succ n ih =>
      intro l hl
      by_cases hnil : l = []
      · subst hnil
        simp [mainChunks_eq]
      · rw [mainChunks_eq, if_neg hnil]
        obtain ⟨hjoin, hmem, hlast⟩ := ih (l.drop 200)
          (by rw [List.length_drop]; omega)
        have htake_ne : l.take 200 ≠ [] := by
          intro h
          rcases List.take_eq_nil_iff.mp h with h' | h'
          · exact absurd h' (by norm_num)
          · exact hnil h'
        refine ⟨?_, ?_, ?_⟩
        · rw [List.flatten_cons, hjoin, List.take_append_drop]
        · intro c hc
          rcases List.mem_cons.mp hc with rfl | hc'
          · exact ⟨htake_ne, by simp [List.length_take]⟩
          · exact hmem c hc'
        · rcases hM : mainChunks (l.drop 200) with _ | ⟨c0, cs⟩
          · simp
          · have hdrop_ne : l.drop 200 ≠ [] := by
              intro h
              rw [mainChunks_eq, h] at hM
              simp at hM
            have hlong : 200 < l.length := by
              have := List.length_drop 200 l
              have hpos : 0 < (l.drop 200).length := List.length_pos.mpr hdrop_ne
              omega
            rw [List.dropLast_cons_of_ne_nil (by rw [← hM]; exact hM ▸ List.cons_ne_nil c0 cs)]
            intro c hc
            rcases List.mem_cons.mp hc with rfl | hc'
            · rw [List.length_take]
              omega
            · exact hlast c (by rw [hM]; exact hM ▸ hc')
  exact key l.length l le_rfl

/-- C9: if the stripped cookie is empty, the stripped token is empty, or no
user id can be resolved (explicitly or from `wr_vid` in the cookie), the run
terminates with the corresponding fatal message and an empty request trace:
no fetch or write is attempted. -/
theorem C9_config_validation (env : Env) (w : World) :
    (pyStrip env.WEREAD_COOKIE = "" →
      mainRun env w = ([], .fatal "Missing env WEREAD_COOKIE")) ∧
    (pyStrip env.WEREAD_COOKIE ≠ "" → pyStrip env.READWISE_TOKEN = "" →
      mainRun env w = ([], .fatal "Missing env READWISE_TOKEN")) ∧
    (pyStrip env.WEREAD_COOKIE ≠ "" → pyStrip env.READWISE_TOKEN ≠ "" →
      pyStrip env.WEREAD_USER_VID = "" →
      parse_cookie_value (pyStrip env.WEREAD_COOKIE) "wr_vid" = none →
      mainRun env w =
        ([], .fatal ("Could not determine userVid. Set env WEREAD_USER_VID explicitly, " ++
          "or ensure cookie contains wr_vid."))) := by
  refine ⟨?_, ?_, ?_⟩
  · intro h1
    unfold mainRun
    rw [if_pos h1]
  · intro h1 h2
    unfold mainRun
    rw [if_neg h1, if_pos h2]
  · intro h1 h2 h3 h4
    unfold mainRun
    rw [if_neg h1, if_neg h2]
    simp only [h3, if_pos, h4]
    rfl

/-- C9 witness: an environment with a cookie that has no `wr_vid` and no
explicit user id aborts with an empty trace. -/
theorem C9_witness :
    mainRun { WEREAD_COOKIE := "sid=abc", READWISE_TOKEN := "tok" }
        { shelf := {}, bookmarklist := fun _ => none, reviewList := fun _ => none, now := 0 } =
      ([], .fatal ("Could not determine userVid. Set env WEREAD_USER_VID explicitly, " ++
        "or ensure cookie contains wr_vid.")) :=
  (C9_config_validation
      { WEREAD_COOKIE := "sid=abc", READWISE_TOKEN := "tok" }
      { shelf := {}, bookmarklist := fun _ => none, reviewList := fun _ => none, now := 0 }).2.2
    (by decide) (by decide) (by decide) (by decide)

end WereadSync
